import Mathlib

/-
Verification of the Siamese sentence-selection model
(`deep_qa/models/sentence_selection/siamese_sentence_selector.py`).

The module under verification builds a computation graph: a question tower
and a sentence tower of stacked seq2seq encoders (optionally shared), a
batch-collapse/expand adapter around the sentence tower, a cosine-similarity
attention scoring stage whose normalization depends on the configured loss
function, and padding-length bookkeeping.  We embed the graph-construction
logic shallowly: configuration and padding-length state as structures, the
constructed graph as a record of the encoder names requested and the scoring
flags, and the scoring/reshape collaborators (which live outside the file
under verification) as functions modelled from the spec.
-/

namespace Siamese

/-- The three valid loss-function choices, as the keys of the `loss_choices`
ordered dictionary are inserted (source lines 56-59). -/
inductive LossFunction where
  | cross_entropy
  | ranking
  | hinge_ranking
deriving DecidableEq

/-- The keys of the `loss_choices` ordered dictionary in insertion order
(source lines 56-59): the acceptable values of the `loss_function`
configuration key. -/
def loss_choices_keys : List String :=
  ["cross_entropy", "ranking", "hinge_ranking"]

/-- Modelled from the spec: `Params.pop_choice` of the `common.params`
collaborator, which is not part of the source under verification.  Spec §7:
an invalid choice "fails immediately at configuration time with an
enumerated-choice error, never silently defaulting except the documented
default-to-first-choice behavior". -/
def pop_choice (value : Option String) (choices : List String)
    (default_to_first_choice : Bool) : Except String String :=
  match value with
  | none =>
      if default_to_first_choice then
        match choices with
        | [] => Except.error "no choices to default to"
        | c :: _ => Except.ok c
      else Except.error "key is required but was not present"
  | some v =>
      if v ∈ choices then Except.ok v
      else Except.error ("invalid choice " ++ v ++ "; expected one of "
        ++ String.intercalate ", " choices)

/-- The `loss_function` configuration step of `__init__` (source lines
66-67): pop the key as a choice among the keys of `loss_choices`, defaulting
to the first choice when the key is unspecified. -/
def init_loss_function (value : Option String) : Except String String :=
  pop_choice value loss_choices_keys true

/-- Decimal rendering of a natural number, the string Python's
format call produces for the encoder-name suffixes `i`. -/
def natDecimal (n : ℕ) : String :=
  if n = 0 then "0" else ⟨(Nat.digits 10 n).reverse.map Nat.digitChar⟩

/-- The seq2seq encoder name requested for depth `i` of the question tower
(`_build_model` lines 104-107): `"seq2seq_{i}"` if the hidden layers are
shared, else `"question_seq2seq_{i}"`. -/
def question_seq2seq_encoder_name (share_hidden_seq2seq_layers : Bool) (i : ℕ) : String :=
  if share_hidden_seq2seq_layers then "seq2seq_" ++ natDecimal i
  else "question_seq2seq_" ++ natDecimal i

/-- The seq2seq encoder name requested for depth `i` of the sentence tower
(`_build_model` lines 117-120): `"seq2seq_{i}"` if the hidden layers are
shared, else `"sentence_seq2seq_{i}"`. -/
def sentence_seq2seq_encoder_name (share_hidden_seq2seq_layers : Bool) (i : ℕ) : String :=
  if share_hidden_seq2seq_layers then "seq2seq_" ++ natDecimal i
  else "sentence_seq2seq_" ++ natDecimal i

/-- The seq2seq encoder names the question loop (`_build_model` lines
103-111) requests, in loop order. -/
def question_seq2seq_encoder_names (share_hidden_seq2seq_layers : Bool)
    (num_hidden_seq2seq_layers : ℕ) : List String :=
  (List.range num_hidden_seq2seq_layers).map
    (question_seq2seq_encoder_name share_hidden_seq2seq_layers)

/-- The seq2seq encoder names the sentence loop (`_build_model` lines
116-125) requests, in loop order. -/
def sentence_seq2seq_encoder_names (share_hidden_seq2seq_layers : Bool)
    (num_hidden_seq2seq_layers : ℕ) : List String :=
  (List.range num_hidden_seq2seq_layers).map
    (sentence_seq2seq_encoder_name share_hidden_seq2seq_layers)

/-- Modelled from the spec: softmax normalization of the score vector into a
probability distribution (spec §4.1.g; the source docstring calls it "a final
softmax", line 43).  The `Attention` layer implementing it lives in
`layers.attention`, outside the source under verification; real numbers stand
in for the floating-point tensors. -/
noncomputable def softmax {n : ℕ} (v : Fin n → ℝ) (i : Fin n) : ℝ :=
  Real.exp (v i) / ∑ j, Real.exp (v j)

/-- Modelled from the spec (§6, attention/similarity primitive): the output
of the `Attention` layer on the cosine-similarity scores, given its
`normalize` flag — the softmax distribution when normalizing, the raw scores
otherwise. -/
noncomputable def attention_output {n : ℕ} (normalize : Bool)
    (scores : Fin n → ℝ) : Fin n → ℝ :=
  if normalize then softmax scores else scores

/-- The `normalize` flag the model hands to the `Attention` layer
(`_build_model` line 146): true exactly when the loss function is
"cross_entropy". -/
def attention_normalize (loss_function : LossFunction) : Bool :=
  decide (loss_function = LossFunction.cross_entropy)

/-- Modelled from the spec: `VERY_NEGATIVE_NUMBER`, the very large negative
sentinel from `tensors.backend`, outside the source under verification. -/
noncomputable def VERY_NEGATIVE_NUMBER : ℝ := -(10 ^ 7)

/-- Modelled from the spec (§4.1.h): the `ReplaceMaskedValues` layer of
`layers.backend`, outside the source under verification — keep the value at
slots whose mask is valid, put `replace_with` at masked (invalid) slots. -/
def replace_masked_values {n : ℕ} (replace_with : ℝ) (mask : Fin n → Bool)
    (v : Fin n → ℝ) (i : Fin n) : ℝ :=
  if mask i then v i else replace_with

/-- The scoring stage of `_build_model` (lines 142-150): the `Attention`
layer applied to the cosine-similarity scores with `normalize` set from the
loss function, then `ReplaceMaskedValues VERY_NEGATIVE_NUMBER` exactly when
the loss function is not "cross_entropy". -/
noncomputable def scoring_stage {n : ℕ} (loss_function : LossFunction)
    (scores : Fin n → ℝ) (mask : Fin n → Bool) : Fin n → ℝ :=
  let sentence_probabilities := attention_output (attention_normalize loss_function) scores
  if loss_function ≠ LossFunction.cross_entropy then
    replace_masked_values VERY_NEGATIVE_NUMBER mask sentence_probabilities
  else sentence_probabilities

/-- Modelled from the spec (§4.2): `CollapseToBatch(1)` of `layers.backend`,
outside the source under verification — merge the leading (example,
sentence-index) dimensions into one batch dimension, row-major. -/
def collapse_to_batch {α : Type} {B S : ℕ} (t : Fin B → Fin S → α) :
    Fin (B * S) → α :=
  fun k =>
    have hS : 0 < S := by
      rcases Nat.eq_zero_or_pos S with h | h
      · exact absurd k.isLt (by simp [h])
      · exact h
    t ⟨k.val / S, Nat.div_lt_of_lt_mul (by rw [Nat.mul_comm S B]; exact k.isLt)⟩
      ⟨k.val % S, Nat.mod_lt _ hS⟩

/-- Modelled from the spec (§4.2): `ExpandFromBatch(1)` of `layers.backend`,
outside the source under verification — split the batch dimension back into
the (example, sentence-index) pair, row-major. -/
def expand_from_batch {α : Type} {B S : ℕ} (t : Fin (B * S) → α) :
    Fin B → Fin S → α :=
  fun b s =>
    t ⟨b.val * S + s.val, by
      have h1 : b.val * S + s.val < (b.val + 1) * S := by
        rw [Nat.succ_mul]
        exact Nat.add_lt_add_left s.isLt _
      exact Nat.lt_of_lt_of_le h1 (Nat.mul_le_mul_right S b.isLt)⟩


/-- The per-instance attributes a `SiameseSentenceSelector` keeps after
`__init__` (source lines 62-69): the configuration options and the two
padding lengths, which are `None` until supplied or observed.
`num_sentence_words` is the sentence length held by the `TextTrainer` base
and used by `_get_sentence_shape`. -/
structure SiameseState where
  num_hidden_seq2seq_layers : ℕ
  share_hidden_seq2seq_layers : Bool
  num_question_words : Option ℕ
  num_sentences : Option ℕ
  num_sentence_words : ℕ
  loss_function : LossFunction

/-- The parts of the constructed `DeepQaModel` graph the claims are about:
the Keras input shapes as `get_input_shape_at(0)` reports them (batch
dimension first, recorded as `none`), the seq2seq encoder names requested in
request order, the sequence-to-vector encoder names, the `normalize` flag
handed to `Attention`, and whether `ReplaceMaskedValues` is applied. -/
structure DeepQaModel where
  input_shapes : List (List (Option ℕ))
  seq2seq_encoder_names : List String
  encoder_names : List String
  normalize : Bool
  replace_masked : Bool

/-- `_build_model` (source lines 72-153) as graph construction: a question
input of shape (num_question_words) and a sentences input of shape
(num_sentences, num_sentence_words); the question and sentence encoder
loops requesting their seq2seq encoder names; the "question" and "sentence"
sequence-to-vector encoders; the `Attention` layer normalizing exactly when
the loss function is "cross_entropy"; and `ReplaceMaskedValues` exactly when
it is not.  Modelled from the spec (§7) where the collaborators are outside
the source: when `num_question_words` or `num_sentences` is still unset,
building fails with a "padding lengths not set" error instead of
constructing a graph with unbound shapes. -/
def build_model (st : SiameseState) : Except String DeepQaModel :=
  match st.num_question_words, st.num_sentences with
  | some q, some s =>
      Except.ok
        { input_shapes := [[none, some q], [none, some s, some st.num_sentence_words]]
          seq2seq_encoder_names :=
            question_seq2seq_encoder_names st.share_hidden_seq2seq_layers
                st.num_hidden_seq2seq_layers
              ++ sentence_seq2seq_encoder_names st.share_hidden_seq2seq_layers
                st.num_hidden_seq2seq_layers
          encoder_names := ["question", "sentence"]
          normalize := attention_normalize st.loss_function
          replace_masked := decide (st.loss_function ≠ LossFunction.cross_entropy) }
  | _, _ => Except.error "padding lengths not set"

/-- `get_padding_lengths` (source lines 163-170): the superclass dictionary
with the keys "num_question_words" and "num_sentences" set to this model's
values, which may still be `None`.  A Python dict whose values may be `None`
is a partial map into `Option ℕ`. -/
def get_padding_lengths (st : SiameseState)
    (super_padding_lengths : String → Option (Option ℕ)) :
    String → Option (Option ℕ) :=
  fun key =>
    if key = "num_question_words" then some st.num_question_words
    else if key = "num_sentences" then some st.num_sentences
    else super_padding_lengths key

/-- `get_instance_sorting_keys` (source lines 173-174). -/
def get_instance_sorting_keys : List String :=
  ["num_sentence_words", "num_question_words"]

/-- `_set_padding_lengths` (source lines 177-185): each of the two lengths
adopts the observed value only when it is still `None`; an already-fixed
value is kept.  The superclass call touches only superclass state. -/
def set_padding_lengths (st : SiameseState) (padding_lengths : String → ℕ) :
    SiameseState :=
  { st with
    num_question_words :=
      match st.num_question_words with
      | none => some (padding_lengths "num_question_words")
      | some q => some q
    num_sentences :=
      match st.num_sentences with
      | none => some (padding_lengths "num_sentences")
      | some s => some s }

/-- `_set_padding_lengths_from_model` (source lines 188-191):
`num_question_words` is read from entry 1 of the question input's shape and
`num_sentences` from entry 1 of the sentences input's shape, as
`model.get_input_shape_at(0)[0][1]` and `[1][1]` do. -/
def set_padding_lengths_from_model (st : SiameseState) (model : DeepQaModel) :
    SiameseState :=
  { st with
    num_question_words := (model.input_shapes.getD 0 []).getD 1 none
    num_sentences := (model.input_shapes.getD 1 []).getD 1 none }

/-- Two decimal digits rendering to the same character are equal. -/
lemma digitChar_inj_lt : ∀ d < 10, ∀ e < 10, Nat.digitChar d = Nat.digitChar e → d = e := by
  decide

/-- Mapping `Nat.digitChar` over lists of decimal digits is injective. -/
lemma map_digitChar_inj : ∀ l₁ l₂ : List ℕ, (∀ d ∈ l₁, d < 10) → (∀ d ∈ l₂, d < 10) →
    l₁.map Nat.digitChar = l₂.map Nat.digitChar → l₁ = l₂ := by
  intro l₁
  induction l₁ with
  | nil => intro l₂ _ _ h; cases l₂ <;> simp_all
  | cons a t ih =>
    intro l₂ h₁ h₂ h
    cases l₂ with
    | nil => simp_all
    | cons b t₂ =>
      simp only [List.map_cons, List.cons.injEq] at h
      have hab : a = b :=
        digitChar_inj_lt a (h₁ a (by simp)) b (h₂ b (by simp)) h.1
      subst hab
      have ht : t = t₂ :=
        ih t₂ (fun d hd => h₁ d (by simp [hd])) (fun d hd => h₂ d (by simp [hd])) h.2
      simp [ht]

/-- The decimal rendering is injective: distinct indices give distinct
encoder-name suffixes. -/
lemma natDecimal_injective : Function.Injective natDecimal := by
  intro m n h
  unfold natDecimal at h
  have allLt : ∀ k : ℕ, ∀ d ∈ Nat.digits 10 k, d < 10 := by
    intro k d hd
    exact Nat.digits_lt_base (by norm_num) hd
  have notZero : ∀ k : ℕ, k ≠ 0 →
      ((Nat.digits 10 k).map Nat.digitChar).reverse ≠ List.cons '0' List.nil := by
    intro k hk hcontra
    have h00 : (Nat.digits 10 k).reverse.map Nat.digitChar
        = List.map Nat.digitChar (List.cons 0 List.nil) := by
      rw [List.map_reverse]
      exact hcontra
    have hrev : (Nat.digits 10 k).reverse = List.cons 0 List.nil :=
      map_digitChar_inj _ _
        (fun d hd => allLt k d (List.mem_reverse.mp hd))
        (by intro d hd; simp at hd; omega) h00
    have hd0 : Nat.digits 10 k = List.cons 0 List.nil := by
      have := congrArg List.reverse hrev
      simpa using this
    have := Nat.getLast_digit_ne_zero 10 hk
    simp [hd0] at this
  by_cases hm : m = 0 <;> by_cases hn : n = 0 <;> simp [hm, hn] at h ⊢
  · exact absurd (congrArg String.data h).symm (notZero n hn)
  · exact absurd (congrArg String.data h) (notZero m hm)
  · have hk : ((Nat.digits 10 m).map Nat.digitChar).reverse
        = ((Nat.digits 10 n).map Nat.digitChar).reverse :=
      congrArg String.data h
    have hmap := List.reverse_injective hk
    have hdig : Nat.digits 10 m = Nat.digits 10 n :=
      map_digitChar_inj _ _ (allLt m) (allLt n) hmap
    have := congrArg (Nat.ofDigits 10) hdig
    simpa [Nat.ofDigits_digits] using this


/-- Appending a fixed string in front of the decimal rendering is injective. -/
lemma append_natDecimal_inj (p : String) :
    Function.Injective (fun i => p ++ natDecimal i) := by
  intro m n h
  apply natDecimal_injective
  have hd : p.data ++ (natDecimal m).data = p.data ++ (natDecimal n).data := by
    have := congrArg String.data h
    simpa [String.data_append] using this
  have := List.append_cancel_left hd
  exact String.ext this

/-- The question-tower and sentence-tower names never collide when the
hidden layers are not shared. -/
lemma question_name_ne_sentence_name (a b : String) :
    ("question_seq2seq_" ++ a) ≠ ("sentence_seq2seq_" ++ b) := by
  intro h
  have hd := congrArg String.data h
  simp only [String.data_append] at hd
  simp only [List.cons_append, List.cons.injEq] at hd
  exact absurd hd.1 (by decide)

/-- Distinct depths give distinct question-tower encoder names. -/
lemma question_seq2seq_encoder_name_inj (share : Bool) :
    Function.Injective (question_seq2seq_encoder_name share) := by
  intro m n h
  cases share <;> simp [question_seq2seq_encoder_name] at h <;>
    exact append_natDecimal_inj _ h

/-- Distinct depths give distinct sentence-tower encoder names. -/
lemma sentence_seq2seq_encoder_name_inj (share : Bool) :
    Function.Injective (sentence_seq2seq_encoder_name share) := by
  intro m n h
  cases share <;> simp [sentence_seq2seq_encoder_name] at h <;>
    exact append_natDecimal_inj _ h

/-- One question-tower name is requested per hidden layer. -/
lemma question_seq2seq_encoder_names_length (share : Bool) (n : ℕ) :
    (question_seq2seq_encoder_names share n).length = n := by
  simp [question_seq2seq_encoder_names]

/-- One sentence-tower name is requested per hidden layer. -/
lemma sentence_seq2seq_encoder_names_length (share : Bool) (n : ℕ) :
    (sentence_seq2seq_encoder_names share n).length = n := by
  simp [sentence_seq2seq_encoder_names]

/-- The name requested at position `i` of the question loop. -/
lemma question_seq2seq_encoder_names_getElem? (share : Bool) (n i : ℕ) (h : i < n) :
    (question_seq2seq_encoder_names share n)[i]?
      = some (question_seq2seq_encoder_name share i) := by
  simp [question_seq2seq_encoder_names, List.getElem?_range, h]

/-- The name requested at position `i` of the sentence loop. -/
lemma sentence_seq2seq_encoder_names_getElem? (share : Bool) (n i : ℕ) (h : i < n) :
    (sentence_seq2seq_encoder_names share n)[i]?
      = some (sentence_seq2seq_encoder_name share i) := by
  simp [sentence_seq2seq_encoder_names, List.getElem?_range, h]

/-- The number of distinct seq2seq encoder names requested over both towers:
`n` when the hidden layers are shared, `2 n` when they are not. -/
lemma seq2seq_names_distinct_card (share : Bool) (n : ℕ) :
    ((question_seq2seq_encoder_names share n)
      ++ sentence_seq2seq_encoder_names share n).toFinset.card
      = if share then n else 2 * n := by
  have hqnodup : (question_seq2seq_encoder_names share n).Nodup :=
    (List.nodup_range n).map (question_seq2seq_encoder_name_inj share)
  have hsnodup : (sentence_seq2seq_encoder_names share n).Nodup :=
    (List.nodup_range n).map (sentence_seq2seq_encoder_name_inj share)
  have hqcard : (question_seq2seq_encoder_names share n).toFinset.card = n := by
    rw [List.toFinset_card_of_nodup hqnodup, question_seq2seq_encoder_names_length]
  have hscard : (sentence_seq2seq_encoder_names share n).toFinset.card = n := by
    rw [List.toFinset_card_of_nodup hsnodup, sentence_seq2seq_encoder_names_length]
  cases share
  · have hdisj : Disjoint (question_seq2seq_encoder_names false n).toFinset
        (sentence_seq2seq_encoder_names false n).toFinset := by
      rw [Finset.disjoint_left]
      intro a ha hb
      rw [List.mem_toFinset] at ha hb
      simp only [question_seq2seq_encoder_names, sentence_seq2seq_encoder_names,
        List.mem_map, List.mem_range] at ha hb
      obtain ⟨i, _, hi⟩ := ha
      obtain ⟨j, _, hj⟩ := hb
      rw [← hi] at hj
      simp only [question_seq2seq_encoder_name, sentence_seq2seq_encoder_name] at hj
      simp at hj
      exact question_name_ne_sentence_name _ _ hj.symm
    rw [List.toFinset_append, Finset.card_union_of_disjoint hdisj, hqcard, hscard]
    simp [Nat.two_mul]
  · have heq : sentence_seq2seq_encoder_names true n
        = question_seq2seq_encoder_names true n := by
      simp [sentence_seq2seq_encoder_names, question_seq2seq_encoder_names,
        sentence_seq2seq_encoder_name, question_seq2seq_encoder_name]
    rw [heq, List.toFinset_append, Finset.union_self, hqcard]
    simp


/-- Applying a curried two-index function to index pairs with equal values
gives equal results. -/
lemma fin_app_congr {α : Type} {B S : ℕ} (t : Fin B → Fin S → α)
    (x b : Fin B) (y s : Fin S) (hx : x.val = b.val) (hy : y.val = s.val) :
    t x y = t b s := by
  have h1 : x = b := Fin.ext hx
  have h2 : y = s := Fin.ext hy
  rw [h1, h2]

/-- Collapsing then expanding with the same sentence-index extent restores
every entry: the reshape round-trip is the identity. -/
lemma expand_collapse {α : Type} {B S : ℕ} (t : Fin B → Fin S → α) :
    expand_from_batch (collapse_to_batch t) = t := by
  funext b s
  have hS : 0 < S := Nat.lt_of_le_of_lt (Nat.zero_le _) s.isLt
  have hdiv : (b.val * S + s.val) / S = b.val := by
    rw [Nat.add_comm, Nat.add_mul_div_right _ _ hS, Nat.div_eq_of_lt s.isLt, Nat.zero_add]
  have hmod : (b.val * S + s.val) % S = s.val := by
    rw [Nat.add_comm, Nat.add_mul_mod_self_right, Nat.mod_eq_of_lt s.isLt]
  unfold expand_from_batch collapse_to_batch
  exact fin_app_congr t _ b _ s hdiv hmod

/-- The softmax outputs over a nonempty index range sum to one. -/
lemma softmax_sum_eq_one {n : ℕ} (hn : 0 < n) (v : Fin n → ℝ) :
    ∑ i, softmax v i = 1 := by
  have hne : (Finset.univ : Finset (Fin n)).Nonempty := ⟨⟨0, hn⟩, Finset.mem_univ _⟩
  have hpos : 0 < ∑ j, Real.exp (v j) :=
    Finset.sum_pos (fun j _ => Real.exp_pos _) hne
  unfold softmax
  rw [← Finset.sum_div]
  exact div_self (ne_of_gt hpos)

/-- C1: the cosine-similarity scores over the sentence collection are
normalized across the sentence-index dimension into a probability
distribution (summing to one) exactly when the configured loss function is
"cross_entropy"; for any other valid loss function the attention output is
the raw score vector, left unnormalized. -/
theorem c1_normalize_iff_cross_entropy {n : ℕ} (hn : 0 < n)
    (loss_function : LossFunction) (scores : Fin n → ℝ) :
    (loss_function = LossFunction.cross_entropy →
      ∑ i, attention_output (attention_normalize loss_function) scores i = 1)
    ∧ (loss_function ≠ LossFunction.cross_entropy →
      attention_output (attention_normalize loss_function) scores = scores) := by
  constructor
  · intro h
    subst h
    simp only [attention_output, attention_normalize, decide_eq_true_eq, if_true]
    exact softmax_sum_eq_one hn scores
  · intro h
    simp [attention_output, attention_normalize, h]

/-- C1 witness: with loss function "cross_entropy" the two scores of a
two-sentence collection are normalized to sum to one. -/
theorem c1_witness :
    ∑ i : Fin 2, attention_output
      (attention_normalize LossFunction.cross_entropy) (fun _ => (0 : ℝ)) i = 1 :=
  (c1_normalize_iff_cross_entropy (by decide) LossFunction.cross_entropy (fun _ => 0)).1 rfl

/-- C2: for every loss function other than "cross_entropy" (i.e. "ranking"
and "hinge_ranking") the scoring stage replaces the score of every masked
sentence slot with the very large negative sentinel and leaves unmasked
slots at their raw scores; with "cross_entropy" no sentinel replacement is
applied and the output is exactly the attention output. -/
theorem c2_masked_sentinel {n : ℕ} (loss_function : LossFunction)
    (scores : Fin n → ℝ) (mask : Fin n → Bool) :
    (loss_function ≠ LossFunction.cross_entropy →
      ∀ i, scoring_stage loss_function scores mask i
        = if mask i then scores i else VERY_NEGATIVE_NUMBER)
    ∧ (loss_function = LossFunction.cross_entropy →
      scoring_stage loss_function scores mask = attention_output true scores) := by
  constructor
  · intro h i
    simp [scoring_stage, replace_masked_values, attention_output, attention_normalize, h]
  · intro h
    subst h
    simp [scoring_stage, attention_output, attention_normalize]

/-- C2 witness: with loss function "ranking", slot 1 of a two-sentence
collection whose mask invalidates it receives the sentinel, and the valid
slot 0 keeps its raw score. -/
theorem c2_witness :
    scoring_stage LossFunction.ranking (fun _ : Fin 2 => (2 : ℝ))
        (fun i => decide (i.val = 0)) ⟨1, by decide⟩ = VERY_NEGATIVE_NUMBER
    ∧ scoring_stage LossFunction.ranking (fun _ : Fin 2 => (2 : ℝ))
        (fun i => decide (i.val = 0)) ⟨0, by decide⟩ = 2 := by
  have h1 := (c2_masked_sentinel LossFunction.ranking (fun _ : Fin 2 => (2 : ℝ))
      (fun i => decide (i.val = 0))).1 (by decide) ⟨1, by decide⟩
  have h0 := (c2_masked_sentinel LossFunction.ranking (fun _ : Fin 2 => (2 : ℝ))
      (fun i => decide (i.val = 0))).1 (by decide) ⟨0, by decide⟩
  constructor
  · simpa using h1
  · simpa using h0

/-- C4: constructing with a loss_function string outside the three valid
choices fails at configuration-parse time with the enumerated-choice error,
and constructing with loss_function unspecified selects "cross_entropy", the
first choice. -/
theorem c4_loss_function_choice :
    init_loss_function none = Except.ok "cross_entropy"
    ∧ (∀ v : String, v ∉ loss_choices_keys →
      init_loss_function (some v)
        = Except.error ("invalid choice " ++ v ++ "; expected one of "
            ++ String.intercalate ", " loss_choices_keys)) := by
  constructor
  · rfl
  · intro v hv
    simp [init_loss_function, pop_choice, hv]

/-- C4 witness: the unknown choice "mse" is rejected at configuration time
with the enumerated-choice error. -/
theorem c4_witness :
    init_loss_function (some "mse")
      = Except.error ("invalid choice " ++ "mse" ++ "; expected one of "
          ++ String.intercalate ", " loss_choices_keys) :=
  c4_loss_function_choice.2 "mse" (by decide)

/-- C5: collapsing a (B, S, L, D) sentence-collection tensor's leading
(example, sentence-index) dimensions into the batch dimension and expanding
back with the same sentence-index extent S yields the original tensor, every
value unchanged in the same position, and the accompanying mask undergoes
the identical round-trip. -/
theorem c5_collapse_expand_identity (B S L D : ℕ)
    (t : Fin B → Fin S → Fin L → Fin D → ℝ)
    (mask : Fin B → Fin S → Fin L → Bool) :
    expand_from_batch (collapse_to_batch t) = t
    ∧ expand_from_batch (collapse_to_batch mask) = mask :=
  ⟨expand_collapse t, expand_collapse mask⟩

/-- C3: building the model requests, for each depth i below
num_hidden_seq2seq_layers, a question seq2seq encoder named "seq2seq_i" when
sharing and "question_seq2seq_i" otherwise, and a sentence seq2seq encoder
named "seq2seq_i" when sharing and "sentence_seq2seq_i" otherwise, so the
number of distinct seq2seq encoder names equals num_hidden_seq2seq_layers
when shared and twice that when not shared. -/
theorem c3_seq2seq_encoder_names (st : SiameseState) (m : DeepQaModel)
    (hm : build_model st = Except.ok m) :
    (∀ i, i < st.num_hidden_seq2seq_layers →
      m.seq2seq_encoder_names[i]?
        = some (if st.share_hidden_seq2seq_layers then "seq2seq_" ++ natDecimal i
            else "question_seq2seq_" ++ natDecimal i)
      ∧ m.seq2seq_encoder_names[st.num_hidden_seq2seq_layers + i]?
        = some (if st.share_hidden_seq2seq_layers then "seq2seq_" ++ natDecimal i
            else "sentence_seq2seq_" ++ natDecimal i))
    ∧ m.seq2seq_encoder_names.toFinset.card
      = (if st.share_hidden_seq2seq_layers then st.num_hidden_seq2seq_layers
          else 2 * st.num_hidden_seq2seq_layers) := by
  cases hq : st.num_question_words with
  | none => simp [build_model, hq] at hm
  | some q =>
    cases hs : st.num_sentences with
    | none => simp [build_model, hq, hs] at hm
    | some s =>
      simp only [build_model, hq, hs, Except.ok.injEq] at hm
      subst hm
      constructor
      · intro i hi
        constructor
        · rw [List.getElem?_append_left
            (by rw [question_seq2seq_encoder_names_length]; exact hi)]
          rw [question_seq2seq_encoder_names_getElem? _ _ _ hi]
          rfl
        · rw [List.getElem?_append_right
            (by rw [question_seq2seq_encoder_names_length]; exact Nat.le_add_right _ _)]
          rw [question_seq2seq_encoder_names_length, Nat.add_sub_cancel_left]
          rw [sentence_seq2seq_encoder_names_getElem? _ _ _ hi]
          rfl
      · exact seq2seq_names_distinct_card st.share_hidden_seq2seq_layers
          st.num_hidden_seq2seq_layers

/-- C3 witness: two unshared hidden layers produce the requested names
question_seq2seq_0, question_seq2seq_1, sentence_seq2seq_0,
sentence_seq2seq_1 — four distinct seq2seq encoder names. -/
theorem c3_witness :
    (question_seq2seq_encoder_names false 2
      ++ sentence_seq2seq_encoder_names false 2).toFinset.card = 4 := by
  have h := (c3_seq2seq_encoder_names
    { num_hidden_seq2seq_layers := 2, share_hidden_seq2seq_layers := false,
      num_question_words := some 3, num_sentences := some 4,
      num_sentence_words := 5, loss_function := LossFunction.cross_entropy } _ rfl).2
  simpa using h

/-- C6: once num_question_words (resp. num_sentences) is fixed, any call of
the set-padding-lengths operation with any observed values leaves it
unchanged; a length that is not yet fixed adopts the observed value. -/
theorem c6_padding_lengths_immutable (st : SiameseState)
    (padding_lengths : String → ℕ) :
    (∀ q, st.num_question_words = some q →
      (set_padding_lengths st padding_lengths).num_question_words = some q)
    ∧ (st.num_question_words = none →
      (set_padding_lengths st padding_lengths).num_question_words
        = some (padding_lengths "num_question_words"))
    ∧ (∀ s, st.num_sentences = some s →
      (set_padding_lengths st padding_lengths).num_sentences = some s)
    ∧ (st.num_sentences = none →
      (set_padding_lengths st padding_lengths).num_sentences
        = some (padding_lengths "num_sentences")) := by
  refine ⟨?_, ?_, ?_, ?_⟩
  · intro q hq
    simp [set_padding_lengths, hq]
  · intro hq
    simp [set_padding_lengths, hq]
  · intro s hs
    simp [set_padding_lengths, hs]
  · intro hs
    simp [set_padding_lengths, hs]

/-- C6 witness: a model whose num_question_words is fixed at 7 keeps it at 7
when a different value 9 is observed, while the unset num_sentences adopts
the observed 9. -/
theorem c6_witness :
    (set_padding_lengths
      { num_hidden_seq2seq_layers := 2, share_hidden_seq2seq_layers := false,
        num_question_words := some 7, num_sentences := none,
        num_sentence_words := 5, loss_function := LossFunction.cross_entropy }
      (fun _ => 9)).num_question_words = some 7
    ∧ (set_padding_lengths
      { num_hidden_seq2seq_layers := 2, share_hidden_seq2seq_layers := false,
        num_question_words := some 7, num_sentences := none,
        num_sentence_words := 5, loss_function := LossFunction.cross_entropy }
      (fun _ => 9)).num_sentences = some 9 :=
  ⟨(c6_padding_lengths_immutable _ _).1 7 rfl,
    (c6_padding_lengths_immutable _ _).2.2.2 rfl⟩

/-- C7: when num_question_words or num_sentences is still unset, building
the model fails with the "padding lengths not set" error instead of
constructing a graph with unbound shapes. -/
theorem c7_build_requires_lengths (st : SiameseState)
    (h : st.num_question_words = none ∨ st.num_sentences = none) :
    build_model st = Except.error "padding lengths not set" := by
  rcases h with h | h
  · cases hs : st.num_sentences <;> simp [build_model, h, hs]
  · cases hq : st.num_question_words <;> simp [build_model, h, hq]

/-- C7 witness: a freshly configured model with both lengths unset fails to
build with the "padding lengths not set" error. -/
theorem c7_witness :
    build_model
      { num_hidden_seq2seq_layers := 2, share_hidden_seq2seq_layers := false,
        num_question_words := none, num_sentences := none,
        num_sentence_words := 5, loss_function := LossFunction.cross_entropy }
      = Except.error "padding lengths not set" :=
  c7_build_requires_lengths _ (Or.inl rfl)

/-- C8: the set-padding-lengths-from-model operation recovers
num_question_words from entry 1 of the question input's shape and
num_sentences from entry 1 of the sentences input's shape, and for a model
built with values Q and S it reproduces exactly some Q and some S. -/
theorem c8_lengths_from_model (st st2 : SiameseState) (q s : ℕ)
    (hq : st.num_question_words = some q) (hs : st.num_sentences = some s)
    (m : DeepQaModel) (hm : build_model st = Except.ok m) :
    (set_padding_lengths_from_model st2 m).num_question_words = some q
    ∧ (set_padding_lengths_from_model st2 m).num_sentences = some s := by
  simp only [build_model, hq, hs, Except.ok.injEq] at hm
  subst hm
  exact ⟨rfl, rfl⟩

/-- C8 witness: a model built with Q = 3 question words and S = 4 sentences
hands exactly 3 and 4 back through its recorded input shapes. -/
theorem c8_witness :
    (set_padding_lengths_from_model
      { num_hidden_seq2seq_layers := 0, share_hidden_seq2seq_layers := false,
        num_question_words := none, num_sentences := none,
        num_sentence_words := 5, loss_function := LossFunction.cross_entropy }
      { input_shapes := [[none, some 3], [none, some 4, some 5]],
        seq2seq_encoder_names := [], encoder_names := ["question", "sentence"],
        normalize := true, replace_masked := false }).num_question_words = some 3
    ∧ (set_padding_lengths_from_model
      { num_hidden_seq2seq_layers := 0, share_hidden_seq2seq_layers := false,
        num_question_words := none, num_sentences := none,
        num_sentence_words := 5, loss_function := LossFunction.cross_entropy }
      { input_shapes := [[none, some 3], [none, some 4, some 5]],
        seq2seq_encoder_names := [], encoder_names := ["question", "sentence"],
        normalize := true, replace_masked := false }).num_sentences = some 4 :=
  c8_lengths_from_model
    { num_hidden_seq2seq_layers := 0, share_hidden_seq2seq_layers := false,
      num_question_words := some 3, num_sentences := some 4,
      num_sentence_words := 5, loss_function := LossFunction.cross_entropy }
    { num_hidden_seq2seq_layers := 0, share_hidden_seq2seq_layers := false,
      num_question_words := none, num_sentences := none,
      num_sentence_words := 5, loss_function := LossFunction.cross_entropy }
    3 4 rfl rfl _ rfl

/-- C9: the instance-sorting-keys operation returns exactly two keys, the
sentence word-count key first and the question word-count key second, so
length-bucketed batching sorts first by sentence word-count then by question
word-count. -/
theorem c9_sorting_keys :
    get_instance_sorting_keys[0]? = some "num_sentence_words"
    ∧ get_instance_sorting_keys[1]? = some "num_question_words"
    ∧ get_instance_sorting_keys.length = 2 :=
  ⟨rfl, rfl, rfl⟩

/-- C10: calling get_padding_lengths before the lengths are fixed does not
fail: the returned dictionary maps both required keys to the absent value
None and agrees with the superclass dictionary on every other key. -/
theorem c10_padding_keys_present (st : SiameseState)
    (super_padding_lengths : String → Option (Option ℕ))
    (hq : st.num_question_words = none) (hs : st.num_sentences = none) :
    get_padding_lengths st super_padding_lengths "num_question_words" = some none
    ∧ get_padding_lengths st super_padding_lengths "num_sentences" = some none
    ∧ ∀ key, key ≠ "num_question_words" → key ≠ "num_sentences" →
        get_padding_lengths st super_padding_lengths key = super_padding_lengths key := by
  refine ⟨?_, ?_, ?_⟩
  · simp [get_padding_lengths, hq]
  · simp [get_padding_lengths, hs]
  · intro key h1 h2
    simp [get_padding_lengths, h1, h2]

/-- C10 witness: with both lengths unset and an empty superclass dictionary,
the required keys are present and map to None. -/
theorem c10_witness :
    get_padding_lengths
      { num_hidden_seq2seq_layers := 2, share_hidden_seq2seq_layers := false,
        num_question_words := none, num_sentences := none,
        num_sentence_words := 5, loss_function := LossFunction.cross_entropy }
      (fun _ => none) "num_question_words" = some none
    ∧ get_padding_lengths
      { num_hidden_seq2seq_layers := 2, share_hidden_seq2seq_layers := false,
        num_question_words := none, num_sentences := none,
        num_sentence_words := 5, loss_function := LossFunction.cross_entropy }
      (fun _ => none) "num_sentences" = some none :=
  ⟨(c10_padding_keys_present _ _ rfl rfl).1,
    (c10_padding_keys_present _ _ rfl rfl).2.1⟩

end Siamese
